import Mathlib

/-!
Verification development for the PaperMC server supervisor script
(start.py).  The script is embedded shallowly: the module-level globals
CURRENT_BUILD / CURRENT_JAR / CURRENT_JAR_PATH become an explicit
SupState record, the filesystem under SERVER_JAR_LOCATION becomes a
list of (filename, bytes) pairs in directory-walk order, and the two
HTTP endpoints (the versions resource and the per-build resource) plus
the artifact byte stream become an Env of oracles.  requests.get is
modelled as either a network error (connection failure or a stream
truncated before the body was fully read - with stream=False requests
consumes the whole body inside get(), so truncation surfaces there) or
a fully received response carrying a status code and a parsed body;
response.raise_for_status() raises exactly on a 4xx or 5xx status.
Python exceptions become Except values; instrumentation counters
(filesystem scans, artifact fetch requests) record the effects the
testable properties count.
-/

namespace PaperMC

/-- Raw bytes of a response body or a file, one Nat per byte. -/
abbrev Bytes := List Nat

def MINECRAFT_VERSION : String := "1.16.5"

def PROJECT : String := "paper"

def PAPER_ENDPOINT : String :=
  s!"https://papermc.io/api/v2/projects/{PROJECT}/versions/{MINECRAFT_VERSION}"

def SERVER_MEMORY : String := "6G"

/-- The static JVM tuning flag table of start.py. -/
def JVM_FLAGS : List String :=
  [ s!"-Xms{SERVER_MEMORY}",
    s!"-Xmx{SERVER_MEMORY}",
    "-XX:+UseG1GC",
    "-XX:+ParallelRefProcEnabled",
    "-XX:MaxGCPauseMillis=200",
    "-XX:+UnlockExperimentalVMOptions",
    "-XX:+DisableExplicitGC",
    "-XX:+AlwaysPreTouch",
    "-XX:G1NewSizePercent=30",
    "-XX:G1MaxNewSizePercent=40",
    "-XX:G1HeapRegionSize=8M",
    "-XX:G1ReservePercent=20",
    "-XX:G1HeapWastePercent=5",
    "-XX:G1MixedGCCountTarget=4",
    "-XX:InitiatingHeapOccupancyPercent=15",
    "-XX:G1MixedGCLiveThresholdPercent=90",
    "-XX:G1RSetUpdatingPauseTimePercent=5",
    "-XX:SurvivorRatio=32",
    "-XX:+PerfDisableSharedMem",
    "-XX:MaxTenuringThreshold=1",
    "-Dusing.aikars.flags=https://mcflags.emc.gs",
    "-Daikars.new.flags=true" ]

def RESTART_PROMPT_TIMEOUT : Nat := 10

def DOWNLOAD_CHUNK_SIZE : Nat := 8192

/-- The mutable module state of start.py: CURRENT_BUILD (initially -1),
CURRENT_JAR (created by use_build, absent before) and CURRENT_JAR_PATH
(initially None). -/
structure SupState where
  currentBuild : Int
  currentJar : Option String
  currentJarPath : Option String
  deriving DecidableEq, Repr

/-- The module state as the interpreter creates it, before main runs. -/
def initialState : SupState :=
  { currentBuild := -1, currentJar := none, currentJarPath := none }

/-- jar_name of start.py: the artifact filename for a build number
(Python f-string formatting of a negative int keeps the minus sign). -/
def jar_name (build : Int) : String := s!"papermc-server_{build}.jar"

/-- jar_path of start.py, with SERVER_JAR_LOCATION passed explicitly
(in the script it is os.path.abspath "."). -/
def jar_path (loc : String) (jar : String) : String := s!"{loc}/{jar}"

/-- use_build of start.py: overwrite the three globals for a build. -/
def use_build (loc : String) (st : SupState) (build : Int) : SupState :=
  { st with
    currentBuild := build,
    currentJar := some (jar_name build),
    currentJarPath := some (jar_path loc (jar_name build)) }

/-- The Python exceptions the script can raise and catch. -/
inductive PyError where
  | requestsError
  | httpError (status : Nat)
  | keyError (field : String)
  | valueError
  | typeError
  | fileNotFoundError (path : String)
  deriving DecidableEq, Repr

/-- Outcome of requests.get: a connection/truncation error raised inside
get(), or a fully received response with its status code and body. -/
inductive HttpOutcome (α : Type) where
  | networkError
  | ok (status : Nat) (body : α)
  deriving DecidableEq, Repr

/-- Parsed JSON body of the versions resource; builds is none when the
expected list field is absent (or the body fails to parse). -/
structure VersionsBody where
  builds : Option (List Int)
  deriving DecidableEq, Repr

/-- Parsed JSON body of the per-build resource; downloadName is the
nested downloads.application.name field, none when absent. -/
structure BuildBody where
  downloadName : Option String
  deriving DecidableEq, Repr

/-- The remote registry as an oracle: the versions resource, the
per-build resource, and the artifact byte stream per build and name. -/
structure Env where
  versions : HttpOutcome VersionsBody
  buildInfo : Int → HttpOutcome BuildBody
  artifact : Int → String → HttpOutcome Bytes

/-- Equality of embedded Python results is decidable, so concrete runs
can be settled by evaluation. -/
instance exceptDecEq {ε α : Type} [DecidableEq ε] [DecidableEq α] :
    DecidableEq (Except ε α) := fun x y =>
  match x, y with
  | Except.error e, Except.error f =>
    if h : e = f then isTrue (by rw [h])
    else isFalse (by intro hc; injection hc; exact h (by assumption))
  | Except.error _, Except.ok _ => isFalse (by intro hc; exact Except.noConfusion hc)
  | Except.ok _, Except.error _ => isFalse (by intro hc; exact Except.noConfusion hc)
  | Except.ok a, Except.ok b =>
    if h : a = b then isTrue (by rw [h])
    else isFalse (by intro hc; injection hc; exact h (by assumption))

/-- response.raise_for_status(): raises HTTPError exactly when the
status code is in 400..599. -/
def raise_for_status (status : Nat) : Except PyError Unit :=
  if 400 ≤ status ∧ status < 600 then Except.error (PyError.httpError status)
  else Except.ok ()

/-- get_latest_build_number of start.py: GET the versions resource,
raise_for_status, then max(result["builds"]) - KeyError when the field
is absent, ValueError when the list is empty. -/
def get_latest_build_number (env : Env) : Except PyError Int :=
  match env.versions with
  | HttpOutcome.networkError => Except.error PyError.requestsError
  | HttpOutcome.ok status body =>
    match raise_for_status status with
    | Except.error e => Except.error e
    | Except.ok _ =>
      match body.builds with
      | none => Except.error (PyError.keyError "builds")
      | some builds =>
        match builds.max? with
        | none => Except.error PyError.valueError
        | some m => Except.ok m

/-- get_latest_build_download_name of start.py: GET the per-build
resource, raise_for_status, then result["downloads"]["application"]["name"]. -/
def get_latest_build_download_name (env : Env) (build : Int) : Except PyError String :=
  match env.buildInfo build with
  | HttpOutcome.networkError => Except.error PyError.requestsError
  | HttpOutcome.ok status body =>
    match raise_for_status status with
    | Except.error e => Except.error e
    | Except.ok _ =>
      match body.downloadName with
      | none => Except.error (PyError.keyError "downloads")
      | some n => Except.ok n

/-- The filesystem under SERVER_JAR_LOCATION plus the effect counters
the testable properties count: files are (filename, bytes) pairs in
the order os.walk enumerates them. -/
structure World where
  fs : List (String × Bytes)
  scans : Nat
  artifactFetches : Nat
  deriving DecidableEq, Repr

/-- open(name, "wb") followed by writing all bytes: replaces the file
content when the name exists, otherwise creates the file. -/
def fsWrite (fs : List (String × Bytes)) (name : String) (content : Bytes) :
    List (String × Bytes) :=
  if fs.any (fun p => p.1 == name) then
    fs.map (fun p => if p.1 == name then (name, content) else p)
  else fs ++ [(name, content)]

/-- os.remove(path): deletes the file whose jar_path equals path, or
raises FileNotFoundError when no such file exists. -/
def os_remove (loc : String) (fs : List (String × Bytes)) (path : String) :
    Except PyError (List (String × Bytes)) :=
  if fs.any (fun p => jar_path loc p.1 == path) then
    Except.ok (fs.filter (fun p => !(jar_path loc p.1 == path)))
  else Except.error (PyError.fileNotFoundError path)

/-- download_latest_jar of start.py: resolve the download name, GET the
artifact (requests.get without stream=True consumes the whole body
before returning), raise_for_status, then open the install path
jar_path (jar_name latest_build) and write the bytes chunk by chunk
(chunking does not change the written content, so the write is one
step).  The fetch counter records the artifact GET being issued. -/
def download_latest_jar (env : Env) (w : World) (latest_build : Int) :
    Except PyError Unit × World :=
  match get_latest_build_download_name env latest_build with
  | Except.error e => (Except.error e, w)
  | Except.ok download_name =>
    let w1 : World := { w with artifactFetches := w.artifactFetches + 1 }
    match env.artifact latest_build download_name with
    | HttpOutcome.networkError => (Except.error PyError.requestsError, w1)
    | HttpOutcome.ok status content =>
      match raise_for_status status with
      | Except.error e => (Except.error e, w1)
      | Except.ok _ =>
        (Except.ok (), { w1 with fs := fsWrite w1.fs (jar_name latest_build) content })

/-- download_latest_server_build of start.py: look up the latest build
number; when CURRENT_BUILD >= latest_build return None (up to date),
otherwise download the jar and return the new build number. -/
def download_latest_server_build (env : Env) (st : SupState) (w : World) :
    Except PyError (Option Int) × World :=
  match get_latest_build_number env with
  | Except.error e => (Except.error e, w)
  | Except.ok latest_build =>
    if st.currentBuild ≥ latest_build then (Except.ok none, w)
    else
      match download_latest_jar env w latest_build with
      | (Except.error e, w2) => (Except.error e, w2)
      | (Except.ok _, w2) => (Except.ok (some latest_build), w2)

/-- update_server of start.py: the whole body sits in a try/except that
catches every Exception and skips the update.  On a new build it first
runs os.remove CURRENT_JAR_PATH (os.remove None raises TypeError, also
caught), and only then use_build. -/
def update_server (env : Env) (loc : String) (st : SupState) (w : World) :
    SupState × World :=
  match download_latest_server_build env st w with
  | (Except.error _, w2) => (st, w2)
  | (Except.ok none, w2) => (st, w2)
  | (Except.ok (some new_build), w2) =>
    match st.currentJarPath with
    | none => (st, w2)
    | some path =>
      match os_remove loc w2.fs path with
      | Except.error _ => (st, w2)
      | Except.ok fs2 => (use_build loc st new_build, { w2 with fs := fs2 })

/-- Consume a literal character sequence at the head of the input,
returning the rest, or none when the literal is not there. -/
def matchLit : List Char → List Char → Option (List Char)
  | [], cs => some cs
  | _ :: _, [] => none
  | p :: ps, c :: cs => if c = p then matchLit ps cs else none

/-- Decides PAPER_SERVER_REGEX, the anchored pattern
papermc-server_ followed by one or more digits followed by .jar
(re.match with leading caret and trailing dollar is a full match;
the greedy digit run is equivalent to the regex because .jar starts
with a non-digit). -/
def paperServerRegexMatch (s : String) : Bool :=
  match matchLit "papermc-server_".data s.data with
  | none => false
  | some rest =>
    let ds := rest.takeWhile Char.isDigit
    !ds.isEmpty && (rest.dropWhile Char.isDigit == ".jar".data)

/-- First maximal run of digit characters, as PAPER_BUILD_EXTRACT_REGEX
(the unanchored pattern of one or more digits) finds it via search. -/
def firstDigitRun : List Char → Option (List Char)
  | [] => none
  | c :: rest =>
    if c.isDigit then some (c :: rest.takeWhile Char.isDigit)
    else firstDigitRun rest

/-- Python int() of a nonempty digit string. -/
def digitRunToNat (ds : List Char) : Nat :=
  ds.foldl (fun acc c => 10 * acc + (c.toNat - 48)) 0

/-- build_from_jar_name of start.py: int of the first digit run of the
filename, or -1 when the name holds no digit. -/
def build_from_jar_name (name : String) : Int :=
  match firstDigitRun name.data with
  | none => -1
  | some ds => Int.ofNat (digitRunToNat ds)

/-- find_current_build of start.py: walk the directory and return the
build number of the first filename matching PAPER_SERVER_REGEX, or -1
when none matches.  The return type is int: the function never
returns None. -/
def find_current_build (fs : List (String × Bytes)) : Int :=
  match fs.find? (fun p => paperServerRegexMatch p.1) with
  | some p => build_from_jar_name p.1
  | none => -1

/-- fill_in_current_server_info of start.py: scan once, then use_build.
The source guards with if current_build is not None, but
find_current_build returns an int, so the guard always passes. -/
def fill_in_current_server_info (loc : String) (st : SupState) (w : World) :
    SupState × World :=
  let current_build := find_current_build w.fs
  (use_build loc st current_build, { w with scans := w.scans + 1 })

/-- start_server of start.py: when CURRENT_JAR_PATH is None print
Cannot start server and return without spawning (modelled as none);
otherwise spawn java with the flag table, -jar CURRENT_JAR_PATH and
nogui (modelled as the argv list). -/
def start_server (st : SupState) : Option (List String) :=
  match st.currentJarPath with
  | none => none
  | some path => some (["java"] ++ JVM_FLAGS ++ ["-jar", path, "nogui"])

/-- One interaction of the operator console: either select timed out
with no input, or a line arrived and readline returned it. -/
inductive ConsoleEvent where
  | timeout
  | line (s : String)
  deriving DecidableEq, Repr

/-- Python str.strip() with no argument: remove whitespace from both
ends (modelled with Char.isWhitespace, which covers the console's
ASCII whitespace). -/
def pyStrip (cs : List Char) : List Char :=
  ((cs.dropWhile Char.isWhitespace).reverse.dropWhile Char.isWhitespace).reverse

/-- Python str.lower() on one character, for the ASCII range a console
line carries. -/
def pyLowerChar (c : Char) : Char :=
  if 'A' ≤ c ∧ c ≤ 'Z' then Char.ofNat (c.toNat + 32) else c

/-- Python str.lower(). -/
def pyLower (cs : List Char) : List Char := cs.map pyLowerChar

/-- user_requests_stop of start.py over a script of console events:
returns (the decision - true means stop, false means restart - and the
timeout argument passed to each select call).  A line is stripped and
lowercased; r restarts, s stops, anything else repeats the prompt; a
select timeout restarts.  An exhausted script models an operator who
never answers: the loop blocks, so no decision is returned. -/
def user_requests_stop : List ConsoleEvent → Option Bool × List Nat
  | [] => (none, [])
  | ConsoleEvent.timeout :: _ => (some false, [RESTART_PROMPT_TIMEOUT])
  | ConsoleEvent.line s :: rest =>
    let user_response := pyLower (pyStrip s.data)
    if user_response = "r".data then (some false, [RESTART_PROMPT_TIMEOUT])
    else if user_response = "s".data then (some true, [RESTART_PROMPT_TIMEOUT])
    else
      let r := user_requests_stop rest
      (r.1, RESTART_PROMPT_TIMEOUT :: r.2)

/-- What one iteration of the main loop consumes: the registry as the
iteration sees it and the operator's console events after the child
process exits. -/
structure CycleInput where
  env : Env
  events : List ConsoleEvent

/-- Outcome of running the main loop over a finite list of cycle
inputs: the final state and world, the argv of every spawn performed
(none records an iteration whose start_server refused to spawn), and
whether the loop exited through the operator's stop decision. -/
structure LoopResult where
  st : SupState
  w : World
  spawns : List (Option (List String))
  stopped : Bool

/-- The while True loop of main: update_server, start_server,
user_requests_stop, break exactly on the stop decision.  A cycle whose
console script ends without a decision blocks forever: no further
cycle runs and the loop has not stopped. -/
def run_loop (loc : String) : SupState → World → List CycleInput → LoopResult
  | st, w, [] => ⟨st, w, [], false⟩
  | st, w, inp :: rest =>
    let p := update_server inp.env loc st w
    let sp := start_server p.1
    match (user_requests_stop inp.events).1 with
    | some true => ⟨p.1, p.2, [sp], true⟩
    | some false =>
      let r := run_loop loc p.1 p.2 rest
      ⟨r.st, r.w, sp :: r.spawns, r.stopped⟩
    | none => ⟨p.1, p.2, [sp], false⟩

/-- main of start.py: fill_in_current_server_info once, then the loop. -/
def main_run (loc : String) (w : World) (inputs : List CycleInput) : LoopResult :=
  let p := fill_in_current_server_info loc initialState w
  run_loop loc p.1 p.2 inputs

/-! Concrete fixtures for the scenario evaluations, counterexamples and
witnesses: a server directory, small worlds and registries. -/

/-- A concrete SERVER_JAR_LOCATION. -/
def loc0 : String := "/srv"

/-- An empty install directory, counters at zero. -/
def w0 : World := { fs := [], scans := 0, artifactFetches := 0 }

/-- A directory already holding the build-42 artifact. -/
def w42 : World :=
  { fs := [("papermc-server_42.jar", [1, 2, 3])], scans := 0, artifactFetches := 0 }

/-- A healthy registry whose latest build is 77, advertising the
download name paper-77.jar and serving four bytes for it. -/
def env77 : Env :=
  { versions := HttpOutcome.ok 200 { builds := some [75, 76, 77] },
    buildInfo := fun b =>
      if b = 77 then HttpOutcome.ok 200 { downloadName := some "paper-77.jar" }
      else HttpOutcome.networkError,
    artifact := fun b n =>
      if b = 77 ∧ n = "paper-77.jar" then HttpOutcome.ok 200 [202, 254, 190, 239]
      else HttpOutcome.networkError }

/-- A registry whose every request fails at the network layer. -/
def envDown : Env :=
  { versions := HttpOutcome.networkError,
    buildInfo := fun _ => HttpOutcome.networkError,
    artifact := fun _ _ => HttpOutcome.networkError }

/-- A registry that resolves build 77 and its download name but whose
artifact transfer fails mid-stream. -/
def envFetchFail : Env :=
  { versions := HttpOutcome.ok 200 { builds := some [75, 76, 77] },
    buildInfo := fun b =>
      if b = 77 then HttpOutcome.ok 200 { downloadName := some "paper-77.jar" }
      else HttpOutcome.networkError,
    artifact := fun _ _ => HttpOutcome.networkError }

/-- A registry answering the versions resource with status 304 (not an
error status for raise_for_status) and a builds list. -/
def env304 : Env :=
  { versions := HttpOutcome.ok 304 { builds := some [75, 76, 77] },
    buildInfo := fun _ => HttpOutcome.networkError,
    artifact := fun _ _ => HttpOutcome.networkError }

/-- A registry whose latest build is 42, matching the w42 artifact. -/
def env42 : Env :=
  { versions := HttpOutcome.ok 200 { builds := some [41, 42] },
    buildInfo := fun b =>
      if b = 42 then HttpOutcome.ok 200 { downloadName := some "paper-42.jar" }
      else HttpOutcome.networkError,
    artifact := fun b n =>
      if b = 42 ∧ n = "paper-42.jar" then HttpOutcome.ok 200 [9, 9]
      else HttpOutcome.networkError }

/-- The state after the build-42 artifact was installed and adopted. -/
def st42 : SupState := use_build loc0 initialState 42

/-- The state after a (hypothetical) build-78 artifact was adopted,
ahead of the registry's latest build 77. -/
def st78 : SupState := use_build loc0 initialState 78

/-- End-to-end scenario 1 of the spec, one supervisor cycle: empty
directory, startup scan, then the update step against env77. -/
def scenario1_cycle : SupState × World :=
  let p := fill_in_current_server_info loc0 initialState w0
  update_server env77 loc0 p.1 p.2

/-- Dead-end scenario of the spec: empty directory, startup scan, then
the update step against an unreachable registry. -/
def scenario3_cycle : SupState × World :=
  let p := fill_in_current_server_info loc0 initialState w0
  update_server envDown loc0 p.1 p.2

/-- The failure cases of the update phase, as exceptions reach the
try/except of update_server: either the registry lookup, the
download-name resolution or the fetch raised (an error of
download_latest_server_build), or those succeeded with a new build and
the install sub-step raised - os.remove of a None path (TypeError) or
of a path with no file behind it (FileNotFoundError). -/
def update_step_fails (env : Env) (loc : String) (st : SupState) (w : World) : Prop :=
  (∃ e, (download_latest_server_build env st w).1 = Except.error e) ∨
  (∃ b, (download_latest_server_build env st w).1 = Except.ok (some b) ∧
    (st.currentJarPath = none ∨
      ∃ e p, st.currentJarPath = some p ∧
        os_remove loc (download_latest_server_build env st w).2.fs p = Except.error e))

/-- The state main reaches from an empty install directory: the
startup scan found nothing and adopted the sentinel build -1. -/
def stScan : SupState := (fill_in_current_server_info loc0 initialState w0).1


/-! Theorems: the claims settled against the embedding. -/

theorem download_latest_jar_error_fs (env : Env) (w : World) (b : Int) (e : PyError)
    (h : (download_latest_jar env w b).1 = Except.error e) :
    (download_latest_jar env w b).2.fs = w.fs := by
  unfold download_latest_jar at h ⊢
  rcases hname : get_latest_build_download_name env b with e1 | n <;>
    simp only [hname] at h ⊢
  rcases hart : env.artifact b n with _ | ⟨status, content⟩ <;>
    simp only [hart] at h ⊢
  rcases hrs : raise_for_status status with e2 | u <;>
    simp only [hrs] at h ⊢
  simp at h

theorem update_server_fst_of_error (env : Env) (loc : String) (st : SupState) (w : World)
    (e : PyError) (h : (download_latest_server_build env st w).1 = Except.error e) :
    (update_server env loc st w).1 = st := by
  unfold update_server
  rcases hd : download_latest_server_build env st w with ⟨r, w2⟩
  rw [hd] at h
  dsimp only at h
  subst h
  rfl

/-- C1: when the artifact download fails (network error, truncated
stream, or HTTP error status), nothing was written to the install
path: the filesystem is unchanged, so a subsequent find_current_build
scan reports exactly what it reported before - the previously
installed artifact, if any, stays current. -/
theorem download_failure_keeps_current (env : Env) (w : World) (b : Int) (e : PyError)
    (h : (download_latest_jar env w b).1 = Except.error e) :
    (download_latest_jar env w b).2.fs = w.fs ∧
    find_current_build (download_latest_jar env w b).2.fs = find_current_build w.fs := by
  have hfs := download_latest_jar_error_fs env w b e h
  exact ⟨hfs, by rw [hfs]⟩

/-- Witness for C1 at a registry whose artifact transfer dies
mid-stream, over a directory holding the build-42 artifact. -/
theorem download_failure_keeps_current_witness :
    (download_latest_jar envFetchFail w42 77).1 = Except.error PyError.requestsError ∧
    ((download_latest_jar envFetchFail w42 77).2.fs = w42.fs ∧
     find_current_build (download_latest_jar envFetchFail w42 77).2.fs
       = find_current_build w42.fs) :=
  ⟨by decide, download_failure_keeps_current envFetchFail w42 77 PyError.requestsError (by decide)⟩

/-- C2 (amended): the up-to-date check the update step performs is
CURRENT_BUILD >= latest, not equality: the step downloads nothing
exactly when the installed build is at least the latest build; with no
artifact installed (sentinel -1) and a non-negative latest build a
download is attempted. -/
theorem up_to_date_check (env : Env) (st : SupState) (w : World) (L : Int)
    (hL : get_latest_build_number env = Except.ok L) :
    ((download_latest_server_build env st w).1 = Except.ok none ↔ L ≤ st.currentBuild) ∧
    (st.currentBuild = -1 → 0 ≤ L →
      (download_latest_server_build env st w).1 ≠ Except.ok none) := by
  have hmain : (download_latest_server_build env st w).1 = Except.ok none
      ↔ L ≤ st.currentBuild := by
    unfold download_latest_server_build
    simp only [hL]
    by_cases hge : st.currentBuild ≥ L
    · rw [if_pos hge]
      exact ⟨fun _ => hge, fun _ => rfl⟩
    · rw [if_neg hge]
      apply iff_of_false _ hge
      rcases hdl : download_latest_jar env w L with ⟨r, w2⟩
      rcases r with e2 | u
      · simp [hdl]
      · simp [hdl]
  refine ⟨hmain, fun hB hL0 hc => ?_⟩
  have hle := hmain.mp hc
  rw [hB] at hle
  omega

/-- The up-to-date check at installed build 78 and latest build 77:
the step reports up to date (and fetches nothing) although 78 is not
equal to 77 - the source compares with >=, not equality. -/
theorem up_to_date_check_counterexample :
    st78.currentBuild = 78 ∧ get_latest_build_number env77 = Except.ok 77 ∧
    (download_latest_server_build env77 st78 w0).1 = Except.ok none ∧
    (download_latest_server_build env77 st78 w0).2.artifactFetches = 0 ∧
    (78 : Int) ≠ 77 := by decide

/-- Witness for C2 at the build-42 registry and the installed build-42
state. -/
theorem up_to_date_check_witness :
    ((download_latest_server_build env42 st42 w42).1 = Except.ok none
      ↔ (42 : Int) ≤ st42.currentBuild) :=
  (up_to_date_check env42 st42 w42 42 (by decide)).1

/-- C7 (amended): with the registry reporting no build newer than the
installed one, running the update step twice is the identity both
times: zero filesystem scans in total (the step reuses the build
number cached by the startup scan) and zero downloads on either run. -/
theorem update_twice_cached (env : Env) (loc : String) (st : SupState) (w : World) (L : Int)
    (hL : get_latest_build_number env = Except.ok L) (hle : L ≤ st.currentBuild) :
    update_server env loc st w = (st, w) ∧
    update_server env loc (update_server env loc st w).1 (update_server env loc st w).2
      = (st, w) ∧
    (update_server env loc (update_server env loc st w).1
        (update_server env loc st w).2).2.scans = w.scans ∧
    (update_server env loc (update_server env loc st w).1
        (update_server env loc st w).2).2.artifactFetches = w.artifactFetches := by
  have h1 : download_latest_server_build env st w = (Except.ok none, w) := by
    unfold download_latest_server_build
    simp only [hL]
    rw [if_pos hle]
  have h2 : update_server env loc st w = (st, w) := by
    unfold update_server
    rw [h1]
  refine ⟨h2, ?_, ?_, ?_⟩ <;> simp [h2]

/-- Two successive update steps from fresh counters with nothing newer
remotely: the total filesystem scans performed is zero, not one, and
no download is attempted either. -/
theorem update_twice_counterexample :
    w42.scans = 0 ∧ w42.artifactFetches = 0 ∧
    (update_server env42 loc0 (update_server env42 loc0 st42 w42).1
        (update_server env42 loc0 st42 w42).2).2.scans = 0 ∧
    (update_server env42 loc0 (update_server env42 loc0 st42 w42).1
        (update_server env42 loc0 st42 w42).2).2.artifactFetches = 0 ∧
    (0 : Nat) ≠ 1 := by decide

/-- Witness for C7 at the build-42 registry and installed build 42. -/
theorem update_twice_cached_witness :
    update_server env42 loc0 st42 w42 = (st42, w42) :=
  (update_twice_cached env42 loc0 st42 w42 42 (by decide) (by decide)).1

/-- C8 (amended): the latest-build lookup fails with the network error
when the request dies, fails with the HTTP error when the status is
4xx or 5xx (raise_for_status raises on exactly those; a non-2xx status
outside 400-599, such as 304, is not treated as a failure), fails with
the key error when the builds list is absent, and on success returns
the maximum of all listed build numbers. -/
theorem latest_build_lookup_spec (env : Env) :
    (env.versions = HttpOutcome.networkError →
      get_latest_build_number env = Except.error PyError.requestsError) ∧
    (∀ status body, env.versions = HttpOutcome.ok status body →
      400 ≤ status → status < 600 →
      get_latest_build_number env = Except.error (PyError.httpError status)) ∧
    (∀ status body, env.versions = HttpOutcome.ok status body →
      ¬(400 ≤ status ∧ status < 600) → body.builds = none →
      get_latest_build_number env = Except.error (PyError.keyError "builds")) ∧
    (∀ L, get_latest_build_number env = Except.ok L →
      ∃ status body builds, env.versions = HttpOutcome.ok status body ∧
        body.builds = some builds ∧ L ∈ builds ∧ ∀ x ∈ builds, x ≤ L) := by
  refine ⟨?_, ?_, ?_, ?_⟩
  · intro hv
    unfold get_latest_build_number
    rw [hv]
  · intro status body hv h4 h6
    have hrs : raise_for_status status = Except.error (PyError.httpError status) := by
      unfold raise_for_status
      rw [if_pos ⟨h4, h6⟩]
    unfold get_latest_build_number
    simp only [hv, hrs]
  · intro status body hv hns hb
    have hrs : raise_for_status status = Except.ok () := by
      unfold raise_for_status
      rw [if_neg hns]
    unfold get_latest_build_number
    simp only [hv, hrs, hb]
  · intro L hL
    unfold get_latest_build_number at hL
    rcases hv : env.versions with _ | ⟨status, body⟩
    · simp only [hv] at hL
      exact Except.noConfusion hL
    · simp only [hv] at hL
      rcases hrs : raise_for_status status with e | u
      · simp only [hrs] at hL
        exact Except.noConfusion hL
      · simp only [hrs] at hL
        rcases hb : body.builds with _ | builds
        · simp only [hb] at hL
          exact Except.noConfusion hL
        · simp only [hb] at hL
          rcases hm : builds.max? with _ | m
          · simp only [hm] at hL
            exact Except.noConfusion hL
          · simp only [hm] at hL
            have hmL : m = L := by injection hL
            subst hmL
            refine ⟨status, body, builds, rfl, hb,
              List.max?_mem (fun a b => max_choice a b) hm,
              (List.max?_le_iff (fun _ _ _ => max_le_iff) hm).mp (le_refl m)⟩


theorem run_loop_stopped_exists (loc : String) :
    ∀ (ins : List CycleInput) (st : SupState) (w : World),
      (run_loop loc st w ins).stopped = true →
      ∃ i ∈ ins, (user_requests_stop i.events).1 = some true := by
  intro ins
  induction ins with
  | nil =>
    intro st w h
    simp [run_loop] at h
  | cons inp rest ih =>
    intro st w h
    unfold run_loop at h
    rcases hd : (user_requests_stop inp.events).1 with _ | b
    · simp only [hd] at h
      exact Bool.noConfusion h
    · rcases b
      · simp only [hd] at h
        obtain ⟨i, hi, hdec⟩ := ih _ _ h
        exact ⟨i, List.mem_cons_of_mem _ hi, hdec⟩
      · exact ⟨inp, List.mem_cons_self _ _, hd⟩

theorem update_server_fst_of_fail (env : Env) (loc : String) (st : SupState) (w : World)
    (h : update_step_fails env loc st w) :
    (update_server env loc st w).1 = st := by
  rcases h with ⟨e, he⟩ | ⟨b, hb, hrest⟩
  · exact update_server_fst_of_error env loc st w e he
  · unfold update_server
    rcases hd : download_latest_server_build env st w with ⟨r, w2⟩
    rw [hd] at hb hrest
    dsimp only at hb
    subst hb
    rcases hrest with hp | ⟨e2, p, hp, hrem⟩
    · simp only [hp]
    · simp only [hp]
      dsimp only at hrem
      simp only [hrem]

/-- C5: a failure raised in any sub-step of the update phase -
registry lookup, download-name resolution, fetch, or the install's
os.remove - is caught inside update_server: the state is unchanged,
the cycle still spawns the currently installed artifact, and the loop
can only stop through an explicit operator stop decision - never
because of the update failure. -/
theorem update_failure_never_stops_loop (loc : String) (st : SupState) (w : World)
    (inp : CycleInput) (rest : List CycleInput)
    (hfail : update_step_fails inp.env loc st w) :
    (update_server inp.env loc st w).1 = st ∧
    (run_loop loc st w (inp :: rest)).spawns.head? = some (start_server st) ∧
    ((run_loop loc st w (inp :: rest)).stopped = true →
      ∃ i ∈ inp :: rest, (user_requests_stop i.events).1 = some true) := by
  have hst : (update_server inp.env loc st w).1 = st :=
    update_server_fst_of_fail inp.env loc st w hfail
  refine ⟨hst, ?_, ?_⟩
  · unfold run_loop
    rcases hd : (user_requests_stop inp.events).1 with _ | b
    · simp [hd, hst]
    · rcases b <;> simp [hd, hst]
  · exact fun h => run_loop_stopped_exists loc (inp :: rest) st w h

/-- Witness for C5 at the install sub-step failure of scenario 1: from
the post-scan sentinel state the download of build 77 succeeds, then
os.remove of the never-created papermc-server_-1.jar raises
FileNotFoundError; one cycle, which the operator stops. -/
theorem update_failure_never_stops_loop_witness :
    (update_server env77 loc0 stScan w0).1 = stScan ∧
    (run_loop loc0 stScan w0 [⟨env77, [ConsoleEvent.line "s"]⟩]).spawns.head?
      = some (start_server stScan) ∧
    ((run_loop loc0 stScan w0 [⟨env77, [ConsoleEvent.line "s"]⟩]).stopped = true →
      ∃ i ∈ [(⟨env77, [ConsoleEvent.line "s"]⟩ : CycleInput)],
        (user_requests_stop i.events).1 = some true) :=
  update_failure_never_stops_loop loc0 stScan w0 ⟨env77, [ConsoleEvent.line "s"]⟩ []
    (Or.inr ⟨77, by decide,
      Or.inr ⟨PyError.fileNotFoundError (jar_path loc0 (jar_name (-1))),
        jar_path loc0 (jar_name (-1)), by decide, by decide⟩⟩)

/-- C6 (amended): lines stripping and lowercasing to r restart, to s
stop; a select timeout restarts; any other line (after the same
normalisation) yields no decision and the prompt repeats; and every
select call - including each repeat - passes the full
RESTART_PROMPT_TIMEOUT. -/
theorem decision_parsing :
    (user_requests_stop [ConsoleEvent.line "r"]).1 = some false ∧
    (user_requests_stop [ConsoleEvent.line "R"]).1 = some false ∧
    (user_requests_stop [ConsoleEvent.line "s"]).1 = some true ∧
    (user_requests_stop [ConsoleEvent.line "S"]).1 = some true ∧
    (user_requests_stop [ConsoleEvent.timeout]).1 = some false ∧
    (∀ s rest, pyLower (pyStrip s.data) ≠ "r".data → pyLower (pyStrip s.data) ≠ "s".data →
      user_requests_stop (ConsoleEvent.line s :: rest)
        = ((user_requests_stop rest).1,
           RESTART_PROMPT_TIMEOUT :: (user_requests_stop rest).2)) ∧
    (∀ events t, t ∈ (user_requests_stop events).2 → t = RESTART_PROMPT_TIMEOUT) := by
  refine ⟨by decide, by decide, by decide, by decide, by decide, ?_, ?_⟩
  · intro s rest h1 h2
    simp only [user_requests_stop, if_neg h1, if_neg h2]
  · intro events
    induction events with
    | nil =>
      intro t ht
      simp [user_requests_stop] at ht
    | cons ev rest ih =>
      intro t ht
      rcases ev with _ | s
      · simp [user_requests_stop] at ht
        exact ht
      · unfold user_requests_stop at ht
        by_cases h1 : pyLower (pyStrip s.data) = "r".data
        · rw [if_pos h1] at ht
          simp at ht
          exact ht
        · rw [if_neg h1] at ht
          by_cases h2 : pyLower (pyStrip s.data) = "s".data
          · rw [if_pos h2] at ht
            simp at ht
            exact ht
          · rw [if_neg h2] at ht
            simp at ht
            rcases ht with ht | ht
            · exact ht
            · exact ih t ht

/-- The raw line with an r followed by a blank is none of r, R, s, S
or the empty line, yet it does not make the prompt repeat: the source
strips the line before comparing, so it returns the Restart decision
(a repeat with no further event would have returned no decision). -/
theorem decision_parsing_counterexample :
    ("r " ≠ "r" ∧ "r " ≠ "R" ∧ "r " ≠ "s" ∧ "r " ≠ "S" ∧ "r " ≠ "") ∧
    (user_requests_stop [ConsoleEvent.line "r "]).1 = some false ∧
    (user_requests_stop [ConsoleEvent.line "r "]).1 ≠ (user_requests_stop []).1 := by
  decide

theorem update_server_preserves_jar_path_some (env : Env) (loc : String) (st : SupState)
    (w : World) (h : st.currentJarPath.isSome = true) :
    ((update_server env loc st w).1).currentJarPath.isSome = true := by
  unfold update_server
  rcases hd : download_latest_server_build env st w with ⟨r, w2⟩
  rcases r with e | ob
  · exact h
  · rcases ob with _ | b
    · exact h
    · rcases hp : st.currentJarPath with _ | path
      · rw [hp] at h
        simp at h
      · simp only [hp]
        rcases hrem : os_remove loc w2.fs path with e2 | fs2
        · simp only [hrem]
          exact h
        · simp only [hrem]
          rfl

theorem start_server_spawns_of_some (st : SupState)
    (h : st.currentJarPath.isSome = true) : start_server st ≠ none := by
  unfold start_server
  rcases hp : st.currentJarPath with _ | path
  · rw [hp] at h
    simp at h
  · simp

theorem run_loop_spawns_ne_none (loc : String) :
    ∀ (ins : List CycleInput) (st : SupState) (w : World),
      st.currentJarPath.isSome = true →
      ∀ sp ∈ (run_loop loc st w ins).spawns, sp ≠ none := by
  intro ins
  induction ins with
  | nil =>
    intro st w h sp hsp
    simp [run_loop] at hsp
  | cons inp rest ih =>
    intro st w h sp hsp
    have h2 := update_server_preserves_jar_path_some inp.env loc st w h
    unfold run_loop at hsp
    rcases hd : (user_requests_stop inp.events).1 with _ | b
    · simp only [hd] at hsp
      simp at hsp
      subst hsp
      exact start_server_spawns_of_some _ h2
    · rcases b
      · simp only [hd] at hsp
        simp at hsp
        rcases hsp with hsp | hsp
        · subst hsp
          exact start_server_spawns_of_some _ h2
        · exact ih _ _ h2 sp hsp
      · simp only [hd] at hsp
        simp at hsp
        subst hsp
        exact start_server_spawns_of_some _ h2

/-- C9: after fill_in_current_server_info the recorded jar path is
never absent - when nothing in the directory matches the artifact
pattern the scan yields the sentinel -1 and the path of
papermc-server_-1.jar is adopted - and update_server never clears the
path, so along every run of main from the entry point every cycle's
launch spawns: the Cannot-start-server guard of start_server is
unreachable from main. -/
theorem startup_path_never_absent (loc : String) (st : SupState) (w : World)
    (inputs : List CycleInput) :
    (fill_in_current_server_info loc st w).1.currentJarPath
      = some (jar_path loc (jar_name (find_current_build w.fs))) ∧
    ((∀ p ∈ w.fs, paperServerRegexMatch p.1 = false) →
      (fill_in_current_server_info loc st w).1.currentJarPath
        = some (jar_path loc "papermc-server_-1.jar")) ∧
    start_server (fill_in_current_server_info loc st w).1
      = some (["java"] ++ JVM_FLAGS
          ++ ["-jar", jar_path loc (jar_name (find_current_build w.fs)), "nogui"]) ∧
    (∀ sp ∈ (main_run loc w inputs).spawns, sp ≠ none) := by
  refine ⟨rfl, ?_, rfl, ?_⟩
  · intro hnone
    have hfind : find_current_build w.fs = -1 := by
      unfold find_current_build
      have hfd : w.fs.find? (fun p => paperServerRegexMatch p.1) = none := by
        rw [List.find?_eq_none]
        intro p hp
        simp [hnone p hp]
      rw [hfd]
    show some (jar_path loc (jar_name (find_current_build w.fs)))
        = some (jar_path loc "papermc-server_-1.jar")
    rw [hfind]
    have hname : jar_name (-1) = "papermc-server_-1.jar" := by decide
    rw [hname]
  · intro sp hsp
    have hsome : ((fill_in_current_server_info loc initialState w).1).currentJarPath.isSome
        = true := rfl
    exact run_loop_spawns_ne_none loc inputs
      (fill_in_current_server_info loc initialState w).1
      (fill_in_current_server_info loc initialState w).2 hsome sp hsp

/-- C10: the recorded state (current build and jar path) survives any
exception in the update step unchanged; it is mutated (by use_build)
only when the registry lookup, the download and the removal of the
old jar have all succeeded. -/
theorem update_state_mutated_only_on_success (env : Env) (loc : String)
    (st : SupState) (w : World) :
    (∀ e, (download_latest_server_build env st w).1 = Except.error e →
      (update_server env loc st w).1 = st) ∧
    ((update_server env loc st w).1 ≠ st →
      ∃ b path fs2, (download_latest_server_build env st w).1 = Except.ok (some b) ∧
        st.currentJarPath = some path ∧
        os_remove loc (download_latest_server_build env st w).2.fs path = Except.ok fs2 ∧
        update_server env loc st w
          = (use_build loc st b, { (download_latest_server_build env st w).2 with fs := fs2 })) := by
  constructor
  · intro e he
    exact update_server_fst_of_error env loc st w e he
  · intro hne
    unfold update_server at hne ⊢
    rcases hd : download_latest_server_build env st w with ⟨r, w2⟩
    simp only [hd] at hne ⊢
    rcases r with e | ob
    · simp at hne
    · rcases ob with _ | b
      · simp at hne
      · rcases hp : st.currentJarPath with _ | path
        · simp only [hp] at hne
          simp at hne
        · simp only [hp] at hne ⊢
          rcases hrem : os_remove loc w2.fs path with e2 | fs2
          · simp only [hrem] at hne
            simp at hne
          · simp only [hrem] at hne ⊢
            exact ⟨b, path, fs2, rfl, rfl, hrem, rfl⟩

/-- C3: one supervisor cycle of scenario 1 (empty directory, latest
build 77 with download name paper-77.jar).  The fetch and the install
at papermc-server_77.jar both happen, but os.remove of the nonexistent
papermc-server_-1.jar then raises FileNotFoundError, the whole update
is caught and skipped, the recorded state keeps the sentinel path, and
the spawn uses papermc-server_-1.jar rather than the installed
artifact. -/
theorem scenario1_run :
    scenario1_cycle.2.artifactFetches = 1 ∧
    scenario1_cycle.2.fs = [("papermc-server_77.jar", [202, 254, 190, 239])] ∧
    scenario1_cycle.1.currentBuild = -1 ∧
    scenario1_cycle.1.currentJarPath = some "/srv/papermc-server_-1.jar" ∧
    start_server scenario1_cycle.1
      = some (["java"] ++ JVM_FLAGS ++ ["-jar", "/srv/papermc-server_-1.jar", "nogui"]) := by
  decide

/-- C4: with nothing ever installed and the registry unreachable, the
cycle does not take the Cannot-start-server branch: it spawns java
with -jar pointing at /srv/papermc-server_-1.jar although the
directory holds no file at all. -/
theorem dead_end_still_spawns :
    scenario3_cycle.2.fs = [] ∧
    scenario3_cycle.1.currentJarPath = some "/srv/papermc-server_-1.jar" ∧
    start_server scenario3_cycle.1 ≠ none ∧
    start_server scenario3_cycle.1
      = some (["java"] ++ JVM_FLAGS ++ ["-jar", "/srv/papermc-server_-1.jar", "nogui"]) := by
  decide

/-- The registry answering with status 304 and a builds list: 304 is
not a 2xx status, yet the lookup succeeds and returns the maximum
because raise_for_status only raises on 4xx and 5xx. -/
theorem latest_build_lookup_counterexample :
    env304.versions = HttpOutcome.ok 304 { builds := some [75, 76, 77] } ∧
    ¬(200 ≤ 304 ∧ 304 < 300) ∧
    get_latest_build_number env304 = Except.ok 77 := by
  decide


end PaperMC
